import Mathlib

/-!
Verification of the revid_clone repository (a deterministic, offline
simulation of a video-content production pipeline).

The Lean definitions below are a shallow embedding of the Python sources
  src/revid_clone/models.py
  src/revid_clone/ai_engines.py
  src/revid_clone/storage.py
  src/revid_clone/project_service.py
Python `str` is modelled by `String`, Python `int` by `Int` (Python integers
are unbounded), `None`-able strings by `Option String`, Python lists by
`List`, and JSON documents by the inductive type `Json`.  Python `%` on a
positive modulus agrees with `Int.emod`, and Python floor division `//`
(and `/` on non-negative operands) agrees with `Int` division here.
The filesystem home directory is modelled by an association list from
file names (relative to the home directory) to the JSON document stored
in the file; `json.dumps`/`json.loads` round-trip a document exactly, so
files hold `Json` values directly.
-/

/-! ## Python string primitives used by the sources

These are written over `List Char` by structural recursion (rather than
through the byte-position loops of the core string library) so that every
definition evaluates inside the kernel; each models the named Python
operation on the unicode code points of the string. -/

/-- Split a character list at every character satisfying `p`, keeping empty
segments, as Python `str.split(sep)` keeps them. -/
def splitP (p : Char → Bool) : List Char → List (List Char)
  | [] => [[]]
  | a :: rest =>
    let r := splitP p rest
    if p a then [] :: r
    else
      match r with
      | [] => [[a]]
      | seg :: segs => (a :: seg) :: segs

/-- Does `pat` occur as a contiguous sublist of `l`?  Model of Python
`pat in s`. -/
def containsSub : List Char → List Char → Bool
  | [], pat => pat.isEmpty
  | a :: rest, pat => pat.isPrefixOf (a :: rest) || containsSub rest pat

/-- Model of Python `str.split(c)` for a one-character separator. -/
def pySplitChar (c : Char) (s : String) : List String :=
  (splitP (fun a => a = c) s.data).map String.mk

/-- Model of Python `str.strip()`: drop leading and trailing whitespace. -/
def pyStrip (s : String) : String :=
  String.mk (((s.data.dropWhile Char.isWhitespace).reverse.dropWhile
    Char.isWhitespace).reverse)

/-- Model of Python `str.lower()` on ASCII data. -/
def pyLower (s : String) : String :=
  String.mk (s.data.map Char.toLower)

/-- Model of `text.replace("\n", " ")`. -/
def pyReplaceNl (s : String) : String :=
  String.mk (s.data.map (fun c => if c = '\n' then ' ' else c))

/-- Model of Python `str.split()` with no arguments: split on runs of
whitespace, discarding empty segments. -/
def pySplitWs (s : String) : List String :=
  ((splitP Char.isWhitespace s.data).map String.mk).filter (fun w => w ≠ "")

/-- Greedy line filling: `cur` is the line being assembled, the remaining
words are appended while the line stays within `width`.  This is the core of
Python `textwrap`'s behaviour on the simple inputs this repository produces
(no tabs, no words longer than the wrap width being broken, no hyphen
splitting). -/
def fillLines (width : Nat) (cur : String) : List String → List String
  | [] => [cur]
  | w :: ws =>
    if cur.length + 1 + w.length ≤ width then
      fillLines width (cur ++ " " ++ w) ws
    else
      cur :: fillLines width w ws

/-- Model of Python `textwrap.wrap(text, width)` with default options on the
inputs occurring in this repository: break the text into whitespace-separated
words and fill lines greedily.  A text with no words yields `[]`. -/
def pyWrap (width : Nat) (text : String) : List String :=
  match pySplitWs text with
  | [] => []
  | w :: ws => fillLines width w ws

/-- Model of Python `textwrap.fill(text, width)`: the wrapped lines joined
with newlines. -/
def pyFill (width : Nat) (text : String) : String :=
  String.intercalate "\n" (pyWrap width text)

/-- Model of Python `str.capitalize()`: first character upper-cased, the
rest lower-cased. -/
def pyCapitalize (s : String) : String :=
  match s.data with
  | [] => ""
  | c :: cs => String.mk (c.toUpper :: cs.map Char.toLower)

/-- Model of Python `needle in haystack`: contiguous substring
occurrence. -/
def strContains (haystack needle : String) : Bool :=
  containsSub haystack.data needle.data

/-- Model of Python `s.split(":", 1)[-1]`: everything after the first colon,
or the whole string when it has no colon. -/
def afterFirstColon (s : String) : String :=
  match pySplitChar ':' s with
  | [] => s
  | [x] => x
  | _ :: rest => String.intercalate ":" rest

/-! ## models.py : Scene -/

/-- `Scene` dataclass from models.py, field for field, with the same
defaults. -/
structure Scene where
  index : Int
  title : String
  summary : String
  voiceover : Option String := none
  mood : Option String := none
  aspect_ratio : String := "16:9"
  thumbnail_description : Option String := none
deriving DecidableEq, Repr

/-! ## ai_engines.py -/

/-- `ScriptGenerator.__init__` stores the configured `max_sentences`
(default 5). -/
structure ScriptGenerator where
  max_sentences : Int := 5
deriving DecidableEq, Repr

/-- The list comprehension inside `_normalize_sentences`: replace newlines
with spaces, split on periods, trim each segment, keep the non-empty ones. -/
def rawSentences (text : String) : List String :=
  ((pySplitChar '.' (pyReplaceNl text)).map pyStrip).filter (fun s => s ≠ "")

/-- `_normalize_sentences` from ai_engines.py: the trimmed non-empty
period-separated segments, capped at 10; a fixed fallback sentence when
there are none. -/
def _normalize_sentences (text : String) : List String :=
  let sentences := rawSentences text
  if sentences.isEmpty then ["Introduce the topic in an engaging manner"]
  else sentences.take 10

/-- `_story_arc_templates` from ai_engines.py.  The source returns
`itertools.cycle` over this list; the cycle is modelled by indexing the list
at `index % 6` (the `index`-th `next` of the cycle). -/
def arcTemplates : List String :=
  ["Hook the audience with a relatable question",
   "Present the core promise",
   "Deliver the first key insight",
   "Share the second key insight",
   "Explain how to put the advice into practice",
   "Close with a memorable takeaway"]

/-- `_scene_title` from ai_engines.py. -/
def _scene_title (index : Int) (arc : String) : String :=
  let keywords := (pySplitWs arc).take 3
  "Scene " ++ toString (index + 1) ++ ": " ++
    String.intercalate " " (keywords.map pyCapitalize)

/-- `_voiceover_from_summary` from ai_engines.py. -/
def _voiceover_from_summary (summary : String) : String :=
  String.intercalate " " (pyWrap 80 summary)

/-- `_mood_from_arc` from ai_engines.py. -/
def _mood_from_arc (arc : String) : String :=
  if strContains (pyLower arc) "hook" then "energetic"
  else if strContains (pyLower arc) "promise" then "confident"
  else if strContains (pyLower arc) "insight" then "informative"
  else if strContains (pyLower arc) "practice" then "encouraging"
  else "uplifting"

/-- `_thumbnail_from_arc` from ai_engines.py. -/
def _thumbnail_from_arc (arc sentence : String) : String :=
  let keywords := String.intercalate " " ((pySplitWs sentence).take 6)
  pyStrip (pyLower arc ++ " featuring " ++ keywords)

/-- The body of the `for index in range(num_scenes)` loop in
`ScriptGenerator.generate`: build the scene for a given loop index from the
paired arc and sentence. -/
def buildScene (index : Nat) (arc sentence : String) : Scene :=
  let summary := pyFill 90 (arc ++ ": " ++ sentence)
  { index := (index : Int),
    title := _scene_title (index : Int) arc,
    summary := summary,
    voiceover := some (_voiceover_from_summary summary),
    mood := some (_mood_from_arc arc),
    aspect_ratio := "16:9",
    thumbnail_description := some (_thumbnail_from_arc arc sentence) }

/-- `ScriptGenerator.generate` from ai_engines.py.  `math.ceil` of
`duration_minutes * 1.5` is expressed exactly as `(3 * d + 1) / 2` in
integer floor division (the float product `d * 1.5` is exact for every
magnitude this program can meaningfully receive); the `scenes.append` loop
over `range(num_scenes)` is the fold below.  Note the body never reads
`g.max_sentences`.

The loop body is split off first: pick the arc and the paired sentence for
one loop index and build the scene. -/
def genSceneFor (sentences : List String) (brief : String) (index : Nat) : Scene :=
  let arc := arcTemplates.getD (index % 6) ""
  let sentence :=
    if sentences.isEmpty then brief
    else sentences.getD (index % sentences.length) ""
  buildScene index arc sentence

/-- `ScriptGenerator.generate`, continued: normalize the brief, compute the
scene count, run the loop. -/
def ScriptGenerator.generate (_g : ScriptGenerator) (brief : String)
    (duration_minutes : Int) : List Scene :=
  let sentences := _normalize_sentences brief
  let num_scenes : Int := max 3 (min 6 ((3 * duration_minutes + 1) / 2))
  (List.range num_scenes.toNat).foldl
    (fun scenes index => scenes ++ [genSceneFor sentences brief index]) []

/-- `StoryboardDesigner._shot_suggestion` from ai_engines.py.  The Python
index `index % len(options)` is always in range, so the `getD` default is
never consulted. -/
def _shot_suggestion (index : Int) : String :=
  let options := ["wide establishing", "medium action", "close-up reaction",
                  "dynamic tracking", "graphic overlay"]
  options.getD (index % 5).toNat ""

/-- The body of the `for scene in scenes` loop in
`StoryboardDesigner.design`.  `scene.thumbnail_description or ""` maps both
`None` and the empty string to `""`, which is exactly `Option.getD _ ""`
on this data. -/
def designScene (scene : Scene) : Scene :=
  let aspect := if scene.index % 2 = 0 then "16:9" else "9:16"
  let thumbnail := ( Scene.thumbnail_description scene).getD ""
  let thumbnail := thumbnail ++ " | Shot suggestion: " ++ _shot_suggestion scene.index
  { index := scene.index,
    title := scene.title,
    summary := scene.summary,
    voiceover := scene.voiceover,
    mood := scene.mood,
    aspect_ratio := aspect,
    thumbnail_description := some (pyStrip thumbnail) }

/-- `StoryboardDesigner.design` from ai_engines.py: the
`designed.append(...)` loop. -/
def StoryboardDesigner.design (scenes : List Scene) : List Scene :=
  scenes.foldl (fun designed scene => designed ++ [designScene scene]) []

/-! ## JSON documents -/

/-- JSON values, as produced by `json.dumps` / consumed by `json.loads`.
Objects keep an explicit key order; Python dictionaries never hold a key
twice and all lookups are by key, so the order is irrelevant to behaviour. -/
inductive Json where
  | null
  | str (s : String)
  | int (n : Int)
  | bool (b : Bool)
  | arr (xs : List Json)
  | obj (kvs : List (String × Json))

/-- An optional string serializes to JSON `null` or a JSON string, as the
dataclass fields do in `to_dict`. -/
def optJson : Option String → Json
  | none => .null
  | some s => .str s

/-- `Scene.to_dict` from models.py, key for key. -/
def Scene.toDict (s : Scene) : Json :=
  .obj [("index", .int s.index),
        ("title", .str s.title),
        ("summary", .str s.summary),
        ("voiceover", optJson s.voiceover),
        ("mood", optJson s.mood),
        ("aspect_ratio", .str ( Scene.aspect_ratio s)),
        ("thumbnail_description", optJson s.thumbnail_description)]

/-- Decode a JSON string (a keyword argument whose dataclass field holds a
`str`). -/
def jStr : Json → Except String String
  | .str s => .ok s
  | _ => .error "expected a string"

/-- Decode a JSON integer. -/
def jInt : Json → Except String Int
  | .int n => .ok n
  | _ => .error "expected an integer"

/-- Decode a JSON boolean. -/
def jBool : Json → Except String Bool
  | .bool b => .ok b
  | _ => .error "expected a boolean"

/-- Decode a JSON array, returning its elements. -/
def jArr : Json → Except String (List Json)
  | .arr xs => .ok xs
  | _ => .error "expected a list"

/-- Decode a nullable JSON string. -/
def jOptStr : Json → Except String (Option String)
  | .null => .ok none
  | .str s => .ok (some s)
  | _ => .error "expected a string or null"

/-- Key lookup in a JSON object, first match wins (Python dictionaries hold
each key at most once). -/
def jlookup : List (String × Json) → String → Option Json
  | [], _ => none
  | (k2, v) :: rest, k => if k2 = k then some v else jlookup rest k

/-- A keyword argument with no dataclass default: constructing the value
fails when the key is absent (Python raises `TypeError`). -/
def reqField (kvs : List (String × Json)) (k : String)
    (dec : Json → Except String α) : Except String α :=
  match jlookup kvs k with
  | none => .error ("missing required argument: " ++ k)
  | some v => dec v

/-- A keyword argument with a dataclass default, used when the key is
absent. -/
def optField (kvs : List (String × Json)) (k : String)
    (dec : Json → Except String α) (dflt : α) : Except String α :=
  match jlookup kvs k with
  | none => .ok dflt
  | some v => dec v

/-- Calling a constructor with `**payload` fails on any keyword that is not
a dataclass field (Python raises `TypeError`). -/
def keysAllowed (kvs : List (String × Json)) (allowed : List String) : Bool :=
  kvs.all (fun kv => allowed.contains kv.1)

/-- `Scene(**scene_dict)` as performed by `Project.from_dict`. -/
def Scene.fromDict (j : Json) : Except String Scene :=
  match j with
  | .obj kvs =>
    if keysAllowed kvs ["index", "title", "summary", "voiceover", "mood",
                        "aspect_ratio", "thumbnail_description"] then do
      let index ← reqField kvs "index" jInt
      let title ← reqField kvs "title" jStr
      let summary ← reqField kvs "summary" jStr
      let voiceover ← optField kvs "voiceover" jOptStr none
      let mood ← optField kvs "mood" jOptStr none
      let aspect ← optField kvs "aspect_ratio" jStr "16:9"
      let thumb ← optField kvs "thumbnail_description" jOptStr none
      .ok { index := index, title := title, summary := summary,
            voiceover := voiceover, mood := mood,
            aspect_ratio := aspect, thumbnail_description := thumb }
    else .error "unexpected keyword argument for Scene"
  | _ => .error "Scene payload is not an object"

/-! ## models.py : Project -/

/-- `Project` dataclass from models.py.  `created_at` has an impure default
in Python (the current UTC time); it is an explicit argument everywhere
here. -/
structure Project where
  project_id : String
  title : String
  brief : String
  tone : String
  target_audience : String
  duration_minutes : Int
  created_at : String
  script_summary : Option String := none
  scenes : List Scene := []
  storyboard_ready : Bool := false
  preview_ready : Bool := false
deriving DecidableEq, Repr

/-- `Project.to_dict` from models.py, key for key. -/
def Project.toDict (p : Project) : Json :=
  .obj [("project_id", .str p.project_id),
        ("title", .str p.title),
        ("brief", .str p.brief),
        ("tone", .str p.tone),
        ("target_audience", .str p.target_audience),
        ("duration_minutes", .int p.duration_minutes),
        ("created_at", .str p.created_at),
        ("script_summary", optJson p.script_summary),
        ("scenes", .arr (p.scenes.map Scene.toDict)),
        ("storyboard_ready", .bool p.storyboard_ready),
        ("preview_ready", .bool p.preview_ready)]

/-- `Project.from_dict` from models.py: decode the scene dictionaries from
`payload.get("scenes", [])`, then call `Project(**payload)` with the scenes
replaced.  `now` stands for the current-time string the `created_at` default
would produce when the key is absent. -/
def Project.fromDict (now : String) (j : Json) : Except String Project :=
  match j with
  | .obj kvs =>
    if keysAllowed kvs ["project_id", "title", "brief", "tone",
                        "target_audience", "duration_minutes", "created_at",
                        "script_summary", "scenes", "storyboard_ready",
                        "preview_ready"] then do
      let sceneArr ← optField kvs "scenes" jArr []
      let scenes ← sceneArr.mapM Scene.fromDict
      let project_id ← reqField kvs "project_id" jStr
      let title ← reqField kvs "title" jStr
      let brief ← reqField kvs "brief" jStr
      let tone ← reqField kvs "tone" jStr
      let target_audience ← reqField kvs "target_audience" jStr
      let duration_minutes ← reqField kvs "duration_minutes" jInt
      let created_at ← optField kvs "created_at" jStr now
      let script_summary ← optField kvs "script_summary" jOptStr none
      let storyboard_ready ← optField kvs "storyboard_ready" jBool false
      let preview_ready ← optField kvs "preview_ready" jBool false
      .ok { project_id := project_id, title := title, brief := brief,
            tone := tone, target_audience := target_audience,
            duration_minutes := duration_minutes, created_at := created_at,
            script_summary := script_summary, scenes := scenes,
            storyboard_ready := storyboard_ready,
            preview_ready := preview_ready }
    else .error "unexpected keyword argument for Project"
  | _ => .error "Project payload is not an object"

/-! ## storage.py -/

/-- The home directory: file names (relative to the home) mapped to the
JSON document each file holds. -/
abbrev FS := List (String × Json)

/-- `Path.write_text` through `json.dumps`: overwrite the file if present,
create it otherwise. -/
def fsWrite : FS → String → Json → FS
  | [], name, doc => [(name, doc)]
  | (n2, d2) :: rest, name, doc =>
    if n2 = name then (name, doc) :: rest
    else (n2, d2) :: fsWrite rest name doc

/-- `Path.read_text` through `json.loads`: the document held by a file. -/
def fsGet : FS → String → Option Json
  | [], _ => none
  | (n2, d2) :: rest, name => if n2 = name then some d2 else fsGet rest name

/-- The glob pattern `*.json` used by `list_projects`: the file name ends
with `.json`. -/
def globJson (name : String) : Bool :=
  List.isSuffixOf ".json".data name.data

/-- Lexicographic comparison of character lists by code point, the order
Python `sorted` applies to path strings. -/
def charListLe : List Char → List Char → Bool
  | [], _ => true
  | _ :: _, [] => false
  | a :: as, b :: bs => if a = b then charListLe as bs else decide (a < b)

/-- Python string comparison `a <= b`. -/
def strLeb (a b : String) : Bool :=
  charListLe a.data b.data

/-- `ProjectStorage.path_for`: the file a project is stored in. -/
def projFileName (p : Project) : String :=
  p.project_id ++ ".json"

/-- `ProjectStorage.save`: serialize the project and overwrite its file. -/
def saveFS (fs : FS) (p : Project) : FS :=
  fsWrite fs (projFileName p) (Project.toDict p)

/-- One step of the `list_projects` generator body: read a file and
deserialize it with `Project.from_dict`. -/
def loadFile (now : String) (fs : FS) (name : String) : Except String Project :=
  match fsGet fs name with
  | some doc => Project.fromDict now doc
  | none => .error ("file not found: " ++ name)

/-- `ProjectStorage.list_projects`, with the lazy generator consumed into a
list: glob `*.json`, sort the names, deserialize each file in order.  An
exception while deserializing any file aborts the whole sequence, exactly as
consuming the Python generator would raise. -/
def listProjects (now : String) (fs : FS) : Except String (List Project) :=
  (((fs.map Prod.fst).filter globJson).mergeSort strLeb).mapM (loadFile now fs)

/-! ## project_service.py -/

/-- `_summarize_scenes` from project_service.py. -/
def _summarize_scenes (scenes : List Scene) : String :=
  String.intercalate " | " (scenes.map (fun scene => pyStrip (afterFirstColon scene.summary)))

/-- `_build_preview_payload` from project_service.py, with
`assets_root=self.storage.home`; paths are home-relative here, so the
computed assets location is `assets/<project_id>`. -/
def _build_preview_payload (p : Project) : Json :=
  .obj [("project_id", .str p.project_id),
        ("title", .str p.title),
        ("tone", .str p.tone),
        ("target_audience", .str p.target_audience),
        ("script_summary", optJson p.script_summary),
        ("scenes", .arr (p.scenes.map Scene.toDict)),
        ("render_metadata",
          .obj [("duration_minutes", .int p.duration_minutes),
                ("rendered_with", .str "revid-clone"),
                ("assets_root", .str ("assets/" ++ p.project_id))])]

/-- The `Project(...)` literal built by `ProjectService.create_project`:
empty scenes, both readiness flags false.  The random 12-hex-character id
and the creation timestamp are explicit arguments (they come from `uuid4`
and the clock in Python). -/
def freshProject (project_id title brief tone target_audience : String)
    (duration_minutes : Int) (created_at : String) : Project :=
  { project_id := project_id, title := title, brief := brief, tone := tone,
    target_audience := target_audience,
    duration_minutes := duration_minutes, created_at := created_at }

/-- `ProjectService.create_project`: build the fresh project and persist
it. -/
def createProjectS (fs : FS) (project_id title brief tone target_audience : String)
    (duration_minutes : Int) (created_at : String) : Project × FS :=
  let p := freshProject project_id title brief tone target_audience
    duration_minutes created_at
  (p, saveFS fs p)

/-- `ProjectService.generate_script`: generate scenes from the brief,
derive the summary, replace both fields, persist, return the updated
project. -/
def generateScriptS (g : ScriptGenerator) (fs : FS) (p : Project) : Project × FS :=
  let scenes := ScriptGenerator.generate g p.brief p.duration_minutes
  let summary := _summarize_scenes scenes
  let p2 := { p with scenes := scenes, script_summary := some summary }
  (p2, saveFS fs p2)

/-- `ProjectService.design_storyboard`: generate the script first when there
are no scenes, apply the designer, set `storyboard_ready`, persist. -/
def designStoryboardS (g : ScriptGenerator) (fs : FS) (p : Project) : Project × FS :=
  let step := if p.scenes.isEmpty then generateScriptS g fs p else (p, fs)
  let scenes := StoryboardDesigner.design step.1.scenes
  let p2 := { step.1 with scenes := scenes, storyboard_ready := true }
  (p2, saveFS step.2 p2)

/-- `ProjectService.render_preview`: run the storyboard step first when
`storyboard_ready` is false, build the preview payload, write it to the
requested destination (default `<project_id>_preview.json`), set
`preview_ready`, persist the project, return the destination.  The triple is
(returned destination, persisted project, final home directory). -/
def renderPreviewS (g : ScriptGenerator) (fs : FS) (p : Project)
    (destination : Option String) : String × Project × FS :=
  let step := if !p.storyboard_ready then designStoryboardS g fs p else (p, fs)
  let preview := _build_preview_payload step.1
  let dest := destination.getD (step.1.project_id ++ "_preview.json")
  let fs2 := fsWrite step.2 dest preview
  let p2 := { step.1 with preview_ready := true }
  (dest, p2, saveFS fs2 p2)

/-! ## Lifecycle reachability and the specified invariant -/

/-- The projects producible by any sequence of the four service
operations, starting from `create_project` (with arbitrary id, inputs and
timestamp) and following each operation's returned (and persisted) project.
The storage contents never influence the produced project, so each step
quantifies over an arbitrary home directory. -/
inductive Reachable : Project → Prop where
  | create (project_id title brief tone target_audience : String)
      (duration_minutes : Int) (created_at : String) :
      Reachable (freshProject project_id title brief tone target_audience
        duration_minutes created_at)
  | generate (g : ScriptGenerator) (fs : FS) {p : Project} :
      Reachable p → Reachable (generateScriptS g fs p).1
  | design (g : ScriptGenerator) (fs : FS) {p : Project} :
      Reachable p → Reachable (designStoryboardS g fs p).1
  | render (g : ScriptGenerator) (fs : FS) (destination : Option String)
      {p : Project} :
      Reachable p → Reachable (renderPreviewS g fs p destination).2.1

/-- A scene has an aspect ratio assigned: the field holds one of the two
values of the spec's aspect-ratio enumeration. -/
def sceneAspectAssigned (s : Scene) : Prop :=
  Scene.aspect_ratio s = "16:9" ∨ Scene.aspect_ratio s = "9:16"

/-- The spec's lifecycle invariant: `storyboard_ready` implies non-empty
scenes all carrying an assigned aspect ratio, and `preview_ready` implies
`storyboard_ready`. -/
def LifecycleInv (p : Project) : Prop :=
  (p.storyboard_ready = true →
    p.scenes ≠ [] ∧ ∀ s ∈ p.scenes, sceneAspectAssigned s) ∧
  (p.preview_ready = true → p.storyboard_ready = true)

/-- The spec's scene-count formula, written with real ceiling arithmetic on
`duration_minutes * 1.5`: clamp(ceil(d * 1.5), 3, 6). -/
def specSceneCount (duration_minutes : Int) : Int :=
  max 3 (min 6 ⌈(duration_minutes : ℚ) * 1.5⌉)

/-! ## Concrete data for witnesses and counterexamples -/

/-- A minimal scene with all defaulted fields. -/
def demoScene : Scene :=
  { index := 0, title := "t", summary := "s" }

/-- A freshly created project (the test suite's first fixture, with a fixed
id and timestamp standing for the `uuid4` and clock values). -/
def demoProject : Project :=
  freshProject "feedfacecafe" "Morning Routine Hacks"
    "Share three actionable tips. Focus on energising the viewer."
    "upbeat" "busy professionals" 2 "2024-01-01T00:00:00Z"

/-- A second project with a distinct id. -/
def demoOther : Project :=
  freshProject "000aaa000aaa" "Healthy Snacks"
    "Offer snappy snack ideas for remote workers."
    "friendly" "remote workers" 3 "2024-01-02T00:00:00Z"

/-- A project that already owns one (minimal) scene. -/
def demoScripted : Project :=
  { demoProject with scenes := [demoScene] }

/-- The home directory after creating `demoProject` and rendering its
preview at the default destination. -/
def demoRenderedFS : FS :=
  (renderPreviewS { max_sentences := 5 } (saveFS [] demoProject) demoProject none).2.2

/-! ## Helper lemmas -/

theorem foldl_append_map (f : α → β) (l : List α) (acc : List β) :
    l.foldl (fun d s => d ++ [f s]) acc = acc ++ l.map f := by
  induction l generalizing acc with
  | nil => simp
  | cons a t ih => simp [ih]

theorem design_eq_map (scenes : List Scene) :
    StoryboardDesigner.design scenes = scenes.map designScene :=
  foldl_append_map designScene scenes []

theorem generate_eq_map (g : ScriptGenerator) (brief : String) (d : Int) :
    ScriptGenerator.generate g brief d =
      (List.range (max 3 (min 6 ((3 * d + 1) / 2))).toNat).map
        (genSceneFor (_normalize_sentences brief) brief) :=
  foldl_append_map (genSceneFor (_normalize_sentences brief) brief) _ []

/-! ## C10 : the configured max_sentences cap is dead configuration -/

/-- C10: two ScriptGenerator instances that differ only in their configured
`max_sentences` produce identical scene lists from `generate` for every
brief and duration; the effective sentence cap is the hardcoded 10 inside
`_normalize_sentences`. -/
theorem c10_max_sentences_unused (m1 m2 : Int) (brief : String) (d : Int) :
    ScriptGenerator.generate { max_sentences := m1 } brief d =
      ScriptGenerator.generate { max_sentences := m2 } brief d := rfl

/-! ## C7 : frame property of generate_script -/

/-- C7: `generate_script` returns a project with the same project_id, title,
brief, tone, target_audience, duration_minutes, created_at,
storyboard_ready and preview_ready as its input; only `scenes` and
`script_summary` are replaced (by the generated scenes and their derived
summary). -/
theorem c7_generate_script_frame (g : ScriptGenerator) (fs : FS) (p : Project) :
    ((generateScriptS g fs p).1.project_id = p.project_id ∧
      (generateScriptS g fs p).1.title = p.title ∧
      (generateScriptS g fs p).1.brief = p.brief ∧
      (generateScriptS g fs p).1.tone = p.tone ∧
      (generateScriptS g fs p).1.target_audience = p.target_audience ∧
      (generateScriptS g fs p).1.duration_minutes = p.duration_minutes ∧
      (generateScriptS g fs p).1.created_at = p.created_at ∧
      (generateScriptS g fs p).1.storyboard_ready = p.storyboard_ready ∧
      (generateScriptS g fs p).1.preview_ready = p.preview_ready) ∧
    (generateScriptS g fs p).1.scenes =
      ScriptGenerator.generate g p.brief p.duration_minutes ∧
    (generateScriptS g fs p).1.script_summary =
      some (_summarize_scenes (ScriptGenerator.generate g p.brief p.duration_minutes)) :=
  ⟨⟨rfl, rfl, rfl, rfl, rfl, rfl, rfl, rfl, rfl⟩, rfl, rfl⟩

/-! ## C5 : the storyboard designer's per-scene transformation -/

theorem designScene_spec (s : Scene) :
    designScene s =
      { s with
        aspect_ratio := if s.index % 2 = 0 then "16:9" else "9:16",
        thumbnail_description := some (pyStrip
          (( Scene.thumbnail_description s).getD "" ++ " | Shot suggestion: " ++
            (["wide establishing", "medium action", "close-up reaction",
              "dynamic tracking", "graphic overlay"].getD (s.index % 5).toNat ""))) } := by
  cases s
  rfl

/-- C5: `design` maps every input scene to a copy whose aspect_ratio is
"16:9" for an even index and "9:16" for an odd one, whose
thumbnail_description gains " | Shot suggestion: s" with s the entry at
index mod 5 of the fixed ordered suggestion list, trimmed of surrounding
whitespace, and whose remaining fields (index, title, summary, voiceover,
mood) are copied unchanged. -/
theorem c5_design_transforms_each_scene (scenes : List Scene) :
    StoryboardDesigner.design scenes =
      scenes.map (fun s =>
        { s with
          aspect_ratio := if s.index % 2 = 0 then "16:9" else "9:16",
          thumbnail_description := some (pyStrip
            (( Scene.thumbnail_description s).getD "" ++ " | Shot suggestion: " ++
              (["wide establishing", "medium action", "close-up reaction",
                "dynamic tracking", "graphic overlay"].getD (s.index % 5).toNat ""))) }) := by
  rw [design_eq_map]
  exact List.map_congr_left (fun s _ => designScene_spec s)

/-! ## C2 : scene count and contiguous indices -/

theorem ceil_mul_three_halves (d : Int) : ⌈(d : ℚ) * 1.5⌉ = (3 * d + 1) / 2 := by
  have h15 : (1.5 : ℚ) = 3 / 2 := by norm_num
  rcases Int.even_or_odd d with ⟨k, hk⟩ | ⟨k, hk⟩ <;> subst hk
  · have hc : ((k + k : Int) : ℚ) * 1.5 = ((3 * k : Int) : ℚ) := by
      rw [h15]; push_cast; ring
    rw [hc, Int.ceil_intCast]
    omega
  · have hc : ((2 * k + 1 : Int) : ℚ) * 1.5 = 1 / 2 + ((3 * k + 1 : Int) : ℚ) := by
      rw [h15]; push_cast; ring
    rw [hc, Int.ceil_add_int]
    have hhalf : ⌈(1 / 2 : ℚ)⌉ = 1 := by
      rw [Int.ceil_eq_iff] <;> norm_num
    rw [hhalf]
    omega

theorem generate_length (g : ScriptGenerator) (brief : String) (d : Int) :
    (ScriptGenerator.generate g brief d).length =
      (max 3 (min 6 ((3 * d + 1) / 2))).toNat := by
  rw [generate_eq_map, List.length_map, List.length_range]

theorem generate_length_bounds (g : ScriptGenerator) (brief : String) (d : Int) :
    3 ≤ (ScriptGenerator.generate g brief d).length ∧
      (ScriptGenerator.generate g brief d).length ≤ 6 := by
  rw [generate_length]
  have h3 : (3 : Int) ≤ max 3 (min 6 ((3 * d + 1) / 2)) := le_max_left 3 _
  have h6 : max 3 (min 6 ((3 * d + 1) / 2)) ≤ 6 :=
    max_le (by norm_num) (min_le_left 6 _)
  omega

/-- C2: for every duration in [1, 100] and every brief, `generate` yields
between 3 and 6 scenes, the count is exactly clamp(ceil(duration * 1.5),
3, 6), and scene i carries index i (contiguous from 0). -/
theorem c2_scene_count_and_indices (g : ScriptGenerator) (brief : String)
    (d : Int) (h1 : 1 ≤ d) (h100 : d ≤ 100) :
    3 ≤ (ScriptGenerator.generate g brief d).length ∧
    (ScriptGenerator.generate g brief d).length ≤ 6 ∧
    ((ScriptGenerator.generate g brief d).length : Int) = specSceneCount d ∧
    ∀ (i : Nat) (hi : i < (ScriptGenerator.generate g brief d).length),
      Scene.index ((ScriptGenerator.generate g brief d).get ⟨i, hi⟩) = (i : Int) := by
  refine ⟨(generate_length_bounds g brief d).1, (generate_length_bounds g brief d).2, ?_, ?_⟩
  · rw [generate_length]
    unfold specSceneCount
    rw [ceil_mul_three_halves]
    have h3 : (3 : Int) ≤ max 3 (min 6 ((3 * d + 1) / 2)) := le_max_left 3 _
    omega
  · intro i hi
    have hg := generate_eq_map g brief d
    rw [List.get_eq_getElem]
    conv in ScriptGenerator.generate g brief d => rw [hg]
    rw [List.getElem_map, List.getElem_range]
    rfl

/-- C2 witness: the bounds hypotheses hold at duration 2, where the
conclusion applies. -/
theorem c2_witness :
    (1 : Int) ≤ 2 ∧ (2 : Int) ≤ 100 ∧
    (3 ≤ (ScriptGenerator.generate { max_sentences := 5 } "A. B." 2).length ∧
     (ScriptGenerator.generate { max_sentences := 5 } "A. B." 2).length ≤ 6 ∧
     ((ScriptGenerator.generate { max_sentences := 5 } "A. B." 2).length : Int) = specSceneCount 2 ∧
     ∀ (i : Nat) (hi : i < (ScriptGenerator.generate { max_sentences := 5 } "A. B." 2).length),
       Scene.index ((ScriptGenerator.generate { max_sentences := 5 } "A. B." 2).get ⟨i, hi⟩) = (i : Int)) :=
  ⟨by norm_num, by norm_num,
    c2_scene_count_and_indices { max_sentences := 5 } "A. B." 2 (by norm_num) (by norm_num)⟩

/-! ## C4 : sentence fallback and the cap of 10 -/

theorem normalize_isEmpty_false (b : String) :
    (_normalize_sentences b).isEmpty = false := by
  unfold _normalize_sentences
  cases hr : rawSentences b with
  | nil => simp
  | cons a t => simp [List.take]

theorem generate_congr_sentences (g : ScriptGenerator) (b1 b2 : String) (d : Int)
    (h : _normalize_sentences b1 = _normalize_sentences b2) :
    ScriptGenerator.generate g b1 d = ScriptGenerator.generate g b2 d := by
  rw [generate_eq_map, generate_eq_map]
  refine List.map_congr_left (fun i _ => ?_)
  unfold genSceneFor
  rw [h, normalize_isEmpty_false]
  simp

/-- C4 counterexample: on the empty brief (which splits into no sentences)
the claim predicts each scene's thumbnail is built from the brief itself,
but `_normalize_sentences` substitutes the fixed fallback sentence, so the
thumbnails differ from the claimed ones. -/
theorem c4_counterexample :
    (ScriptGenerator.generate { max_sentences := 5 } "" 2).map
        (fun s => s.thumbnail_description) ≠
      (List.range 3).map
        (fun index => some (_thumbnail_from_arc (arcTemplates.getD (index % 6) "") "")) := by
  decide

/-- C4 amended: when splitting the brief on periods yields no trimmed
non-empty sentences, `generate` pairs the fixed fallback sentence
"Introduce the topic in an engaging manner" (not the brief itself) with
every scene — the output is identical to generating from that sentence —
and for every brief at most the first 10 sentences are used
(`_normalize_sentences` returns the first 10 raw sentences whenever any
exist). -/
theorem c4_fallback_and_cap (g : ScriptGenerator) (brief : String) (d : Int)
    (h : rawSentences brief = []) :
    ScriptGenerator.generate g brief d =
      ScriptGenerator.generate g "Introduce the topic in an engaging manner" d ∧
    _normalize_sentences brief = ["Introduce the topic in an engaging manner"] ∧
    ∀ b2 : String,
      (_normalize_sentences b2).length ≤ 10 ∧
      (rawSentences b2 ≠ [] → _normalize_sentences b2 = (rawSentences b2).take 10) := by
  have hfb : _normalize_sentences brief = ["Introduce the topic in an engaging manner"] := by
    unfold _normalize_sentences
    rw [h]
    rfl
  refine ⟨?_, hfb, ?_⟩
  · exact generate_congr_sentences g _ _ d (by rw [hfb]; rfl)
  · intro b2
    constructor
    · unfold _normalize_sentences
      cases hr : rawSentences b2 with
      | nil => simp
      | cons a t =>
        simp only [List.isEmpty_cons, if_false, Bool.false_eq_true]
        exact le_trans (List.length_take_le 10 (a :: t)) (le_refl 10)
    · intro hne
      unfold _normalize_sentences
      cases hr : rawSentences b2 with
      | nil => exact absurd hr hne
      | cons a t => simp

/-- C4 witness: the empty brief indeed has no raw sentences, and the
amended conclusion holds there. -/
theorem c4_witness :
    rawSentences "" = [] ∧
    (ScriptGenerator.generate { max_sentences := 5 } "" 2 =
        ScriptGenerator.generate { max_sentences := 5 }
          "Introduce the topic in an engaging manner" 2 ∧
      _normalize_sentences "" = ["Introduce the topic in an engaging manner"] ∧
      ∀ b2 : String,
        (_normalize_sentences b2).length ≤ 10 ∧
        (rawSentences b2 ≠ [] → _normalize_sentences b2 = (rawSentences b2).take 10)) :=
  ⟨by decide, c4_fallback_and_cap { max_sentences := 5 } "" 2 (by decide)⟩

/-! ## C3 : second storyboarding pass is not content-identical -/

/-- C3 counterexample: applying `design_storyboard` a second time to the
result of a first application changes scene content — the shot-suggestion
suffix is appended to the thumbnail again rather than recomputed. -/
theorem c3_counterexample :
    ((designStoryboardS { max_sentences := 5 }
        ((designStoryboardS { max_sentences := 5 } [] demoScripted).2)
        ((designStoryboardS { max_sentences := 5 } [] demoScripted).1)).1).scenes ≠
      ((designStoryboardS { max_sentences := 5 } [] demoScripted).1).scenes := by
  decide

theorem designScene_designScene (s : Scene) :
    designScene (designScene s) =
      { designScene s with
        thumbnail_description := some (pyStrip
          (( Scene.thumbnail_description (designScene s)).getD "" ++
            " | Shot suggestion: " ++ _shot_suggestion s.index)) } := by
  cases s
  rfl

/-- C3 amended: a second `design_storyboard` keeps the scene count, keeps
index, title, summary, voiceover, mood and the (deterministically
recomputed) aspect ratio of every scene, but appends a second
" | Shot suggestion: ..." suffix to every thumbnail_description instead of
leaving the content identical. -/
theorem design_step_scenes (g : ScriptGenerator) (fs : FS) (p : Project)
    (h : p.scenes.isEmpty = false) :
    (designStoryboardS g fs p).1.scenes = StoryboardDesigner.design p.scenes := by
  simp only [designStoryboardS, h, Bool.false_eq_true, if_false]

theorem c3_second_pass_appends (g g2 : ScriptGenerator) (fs fs2 : FS)
    (p : Project) (h : p.scenes ≠ []) :
    ((designStoryboardS g2 fs2 ((designStoryboardS g fs p).1)).1).scenes =
      ((designStoryboardS g fs p).1).scenes.map (fun s =>
        { s with
          thumbnail_description := some (pyStrip
            (( Scene.thumbnail_description s).getD "" ++
              " | Shot suggestion: " ++ _shot_suggestion s.index)) }) := by
  cases hsc : p.scenes with
  | nil => exact absurd hsc h
  | cons a t =>
    have hc1 : p.scenes.isEmpty = false := by rw [hsc]; rfl
    have hfirst : ((designStoryboardS g fs p).1).scenes =
        StoryboardDesigner.design p.scenes := design_step_scenes g fs p hc1
    have hc2 : ((designStoryboardS g fs p).1).scenes.isEmpty = false := by
      rw [hfirst, hsc, design_eq_map]
      rfl
    rw [design_step_scenes g2 fs2 _ hc2, hfirst]
    simp only [design_eq_map, List.map_map]
    exact List.map_congr_left (fun s _ => designScene_designScene s)

/-- C3 witness: `demoScripted` has a scene, so the amended description of
the second pass applies to it. -/
theorem c3_witness :
    demoScripted.scenes ≠ [] ∧
    ((designStoryboardS { max_sentences := 5 } []
        ((designStoryboardS { max_sentences := 5 } [] demoScripted).1)).1).scenes =
      ((designStoryboardS { max_sentences := 5 } [] demoScripted).1).scenes.map (fun s =>
        { s with
          thumbnail_description := some (pyStrip
            (( Scene.thumbnail_description s).getD "" ++
              " | Shot suggestion: " ++ _shot_suggestion s.index)) }) :=
  ⟨by decide,
    c3_second_pass_appends { max_sentences := 5 } { max_sentences := 5 } [] []
      demoScripted (by decide)⟩

/-! ## C1 : lifecycle invariant -/

theorem generate_ne_nil (g : ScriptGenerator) (brief : String) (d : Int) :
    ScriptGenerator.generate g brief d ≠ [] := by
  intro h
  have hb := (generate_length_bounds g brief d).1
  rw [h] at hb
  simp at hb

theorem generate_aspect (g : ScriptGenerator) (brief : String) (d : Int) :
    ∀ s ∈ ScriptGenerator.generate g brief d, Scene.aspect_ratio s = "16:9" := by
  intro s hs
  rw [generate_eq_map] at hs
  obtain ⟨i, _, rfl⟩ := List.mem_map.mp hs
  rfl

theorem design_aspect (l : List Scene) :
    ∀ s ∈ StoryboardDesigner.design l, sceneAspectAssigned s := by
  intro s hs
  rw [design_eq_map] at hs
  obtain ⟨t, _, rfl⟩ := List.mem_map.mp hs
  show (if t.index % 2 = 0 then "16:9" else "9:16") = "16:9" ∨
    (if t.index % 2 = 0 then "16:9" else "9:16") = "9:16"
  by_cases h : t.index % 2 = 0
  · left
    rw [if_pos h]
  · right
    rw [if_neg h]

theorem design_ne_nil (l : List Scene) (h : l ≠ []) :
    StoryboardDesigner.design l ≠ [] := by
  rw [design_eq_map]
  simpa using h

theorem design_step_scenes_empty (g : ScriptGenerator) (fs : FS) (p : Project)
    (h : p.scenes.isEmpty = true) :
    (designStoryboardS g fs p).1.scenes =
      StoryboardDesigner.design (ScriptGenerator.generate g p.brief p.duration_minutes) := by
  simp only [designStoryboardS, h, if_true]
  rfl

theorem designS_preview (g : ScriptGenerator) (fs : FS) (p : Project) :
    (designStoryboardS g fs p).1.preview_ready = p.preview_ready := by
  cases hc : p.scenes.isEmpty with
  | true => simp only [designStoryboardS, hc, if_true]; rfl
  | false => simp only [designStoryboardS, hc, Bool.false_eq_true, if_false]

theorem lifecycleInv_designS (g : ScriptGenerator) (fs : FS) (p : Project) :
    LifecycleInv (designStoryboardS g fs p).1 := by
  constructor
  · intro _
    cases hc : p.scenes.isEmpty with
    | true =>
      rw [design_step_scenes_empty g fs p hc]
      exact ⟨design_ne_nil _ (generate_ne_nil g _ _), design_aspect _⟩
    | false =>
      rw [design_step_scenes g fs p hc]
      have hne : p.scenes ≠ [] := by
        intro heq
        rw [heq] at hc
        simp at hc
      exact ⟨design_ne_nil _ hne, design_aspect _⟩
  · intro _
    rfl

theorem lifecycleInv_generateS (g : ScriptGenerator) (fs : FS) (p : Project)
    (ih : LifecycleInv p) : LifecycleInv (generateScriptS g fs p).1 := by
  constructor
  · intro _
    refine ⟨generate_ne_nil g _ _, fun s hs => ?_⟩
    exact Or.inl (generate_aspect g _ _ s hs)
  · intro hpv
    exact ih.2 hpv

theorem renderS_project (g : ScriptGenerator) (fs : FS) (p : Project)
    (dest : Option String) :
    (renderPreviewS g fs p dest).2.1 =
      { (if !p.storyboard_ready then designStoryboardS g fs p else (p, fs)).1 with
        preview_ready := true } := rfl

theorem lifecycleInv_renderS (g : ScriptGenerator) (fs : FS) (p : Project)
    (dest : Option String) (ih : LifecycleInv p) :
    LifecycleInv (renderPreviewS g fs p dest).2.1 := by
  rw [renderS_project]
  cases hb : p.storyboard_ready with
  | true =>
    simp only [hb, Bool.not_true, Bool.false_eq_true, if_false]
    exact ⟨fun _ => ih.1 hb, fun _ => rfl⟩
  | false =>
    simp only [hb, Bool.not_false, if_true]
    have hd := lifecycleInv_designS g fs p
    exact ⟨fun _ => hd.1 rfl, fun _ => rfl⟩

/-- C1: every project reachable through any sequence of `create_project`,
`generate_script`, `design_storyboard`, `render_preview` satisfies the
lifecycle invariant: `storyboard_ready` implies non-empty scenes all
carrying an assigned aspect ratio, and `preview_ready` implies
`storyboard_ready`. -/
theorem c1_lifecycle_invariant (p : Project) (h : Reachable p) : LifecycleInv p := by
  induction h with
  | create pid title brief tone aud dur ca =>
    exact ⟨fun hfalse => by simp [freshProject] at hfalse,
      fun hfalse => by simp [freshProject] at hfalse⟩
  | generate g fs _ ih => exact lifecycleInv_generateS g fs _ ih
  | design g fs _ _ => exact lifecycleInv_designS g fs _
  | render g fs dest _ ih => exact lifecycleInv_renderS g fs _ dest ih

/-- C1 witness: the rendered demo project is reachable and satisfies the
invariant. -/
theorem c1_witness :
    LifecycleInv ((renderPreviewS { max_sentences := 5 } [] demoProject none).2.1) :=
  c1_lifecycle_invariant _
    (Reachable.render { max_sentences := 5 } [] none
      (Reachable.create "feedfacecafe" "Morning Routine Hacks"
        "Share three actionable tips. Focus on energising the viewer."
        "upbeat" "busy professionals" 2 "2024-01-01T00:00:00Z"))

/-! ## C8 : serialization round-trip -/

theorem scene_fromDict_toDict (s : Scene) :
    Scene.fromDict (Scene.toDict s) = .ok s := by
  obtain ⟨i, t, su, v, m, a, td⟩ := s
  cases v <;> cases m <;> cases td <;> rfl

theorem scenes_mapM_loop (l acc : List Scene) :
    List.mapM.loop Scene.fromDict (l.map Scene.toDict) acc = .ok (acc.reverse ++ l) := by
  induction l generalizing acc with
  | nil =>
    show (pure acc.reverse : Except String (List Scene)) = _
    simp
    rfl
  | cons a t ih =>
    rw [List.map_cons]
    show (Scene.fromDict (Scene.toDict a) >>= fun b =>
      List.mapM.loop Scene.fromDict (t.map Scene.toDict) (b :: acc)) = _
    rw [scene_fromDict_toDict]
    show List.mapM.loop Scene.fromDict (t.map Scene.toDict) (a :: acc) = _
    rw [ih]
    simp

theorem project_fromDict_toDict (now : String) (p : Project) :
    Project.fromDict now (Project.toDict p) = .ok p := by
  obtain ⟨pid, t, b, tn, ta, dm, ca, ss, sc, sb, pv⟩ := p
  cases ss <;>
    simp [Project.toDict, Project.fromDict, keysAllowed, jlookup, optField,
      reqField, jStr, jInt, jBool, jOptStr, jArr, optJson, scenes_mapM_loop,
      Bind.bind, Except.bind]

/-- C8: for every Project value, `from_dict` of `to_dict` succeeds —
recovering the project exactly, nested ordered scene list included — and
serializing the result yields a JSON object identical to the original
`to_dict` output. -/
theorem c8_round_trip (now : String) (p : Project) :
    Project.fromDict now (Project.toDict p) = .ok p ∧
    (Project.fromDict now (Project.toDict p)).map Project.toDict =
      .ok (Project.toDict p) := by
  refine ⟨project_fromDict_toDict now p, ?_⟩
  rw [project_fromDict_toDict now p]
  rfl

/-! ## C6 : render_preview on a fresh project -/

theorem fsGet_fsWrite_self (fs : FS) (k : String) (v : Json) :
    fsGet (fsWrite fs k v) k = some v := by
  induction fs with
  | nil => simp [fsWrite, fsGet]
  | cons a rest ih =>
    obtain ⟨n2, d2⟩ := a
    by_cases h : n2 = k
    · simp [fsWrite, fsGet, h]
    · simp [fsWrite, fsGet, h, ih]

theorem fsGet_fsWrite_ne (fs : FS) (k k2 : String) (v : Json) (h : k ≠ k2) :
    fsGet (fsWrite fs k v) k2 = fsGet fs k2 := by
  induction fs with
  | nil => simp [fsWrite, fsGet, h]
  | cons a rest ih =>
    obtain ⟨n2, d2⟩ := a
    by_cases h2 : n2 = k
    · subst h2
      simp [fsWrite, fsGet, h]
    · simp [fsWrite, fsGet, h2, ih]

theorem proj_preview_ne (id : String) :
    (id ++ ".json") ≠ (id ++ "_preview.json") := by
  intro h
  have hl := congrArg String.length h
  rw [String.length_append, String.length_append] at hl
  have h5 : (".json" : String).length = 5 := rfl
  have h13 : ("_preview.json" : String).length = 13 := rfl
  omega

theorem designS_project_id (g : ScriptGenerator) (fs : FS) (p : Project) :
    (designStoryboardS g fs p).1.project_id = p.project_id := by
  cases hc : p.scenes.isEmpty with
  | true => simp only [designStoryboardS, hc, if_true]; rfl
  | false => simp only [designStoryboardS, hc, Bool.false_eq_true, if_false]

theorem designS_project_empty (g : ScriptGenerator) (fs : FS) (p : Project)
    (h : p.scenes.isEmpty = true) :
    (designStoryboardS g fs p).1 =
      { (generateScriptS g fs p).1 with
        scenes := StoryboardDesigner.design ((generateScriptS g fs p).1.scenes),
        storyboard_ready := true } := by
  simp only [designStoryboardS, h, if_true]

theorem fsGet_saveFS_self (fs : FS) (p : Project) :
    fsGet (saveFS fs p) (p.project_id ++ ".json") = some (Project.toDict p) :=
  fsGet_fsWrite_self fs _ _

theorem fsGet_saveFS_ne (fs : FS) (p : Project) (k : String)
    (h : p.project_id ++ ".json" ≠ k) :
    fsGet (saveFS fs p) k = fsGet fs k :=
  fsGet_fsWrite_ne fs _ k _ h

/-- C6: on a fresh project (no scenes, both flags false), `render_preview`
cascades through `generate_script` and `design_storyboard` before writing:
the persisted project is exactly the generated-then-designed project with
both readiness flags true, the project file holds it, the default preview
file holds the payload of the designed project, and the returned value is
the destination path written. -/
theorem c6_render_preview_fresh (g : ScriptGenerator) (fs : FS) (p : Project)
    (h1 : p.scenes = []) (h2 : p.storyboard_ready = false)
    (h3 : p.preview_ready = false) :
    (renderPreviewS g fs p none).1 = p.project_id ++ "_preview.json" ∧
    (renderPreviewS g fs p none).2.1 =
      { (generateScriptS g fs p).1 with
        scenes := StoryboardDesigner.design ((generateScriptS g fs p).1.scenes),
        storyboard_ready := true, preview_ready := true } ∧
    (renderPreviewS g fs p none).2.1.storyboard_ready = true ∧
    (renderPreviewS g fs p none).2.1.preview_ready = true ∧
    fsGet (renderPreviewS g fs p none).2.2 (p.project_id ++ ".json") =
      some (Project.toDict ((renderPreviewS g fs p none).2.1)) ∧
    fsGet (renderPreviewS g fs p none).2.2 ((renderPreviewS g fs p none).1) =
      some (_build_preview_payload ((designStoryboardS g fs p).1)) := by
  have hempty : p.scenes.isEmpty = true := by rw [h1]; rfl
  have hrw : renderPreviewS g fs p none =
      (((designStoryboardS g fs p).1.project_id ++ "_preview.json"),
        { (designStoryboardS g fs p).1 with preview_ready := true },
        saveFS (fsWrite (designStoryboardS g fs p).2
            ((designStoryboardS g fs p).1.project_id ++ "_preview.json")
            (_build_preview_payload (designStoryboardS g fs p).1))
          { (designStoryboardS g fs p).1 with preview_ready := true }) := by
    simp only [renderPreviewS, h2, Bool.not_false, if_true]
    rfl
  have hpid2 : ({ (designStoryboardS g fs p).1 with
      preview_ready := true } : Project).project_id = p.project_id :=
    designS_project_id g fs p
  rw [hrw, designS_project_id]
  refine ⟨rfl, ?_, ?_, rfl, ?_, ?_⟩
  · rw [designS_project_empty g fs p hempty]
  · rw [designS_project_empty g fs p hempty]
  · have h5 := fsGet_saveFS_self
      (fsWrite (designStoryboardS g fs p).2 (p.project_id ++ "_preview.json")
        (_build_preview_payload (designStoryboardS g fs p).1))
      ({ (designStoryboardS g fs p).1 with preview_ready := true })
    rw [hpid2] at h5
    exact h5
  · have hne : ({ (designStoryboardS g fs p).1 with
        preview_ready := true } : Project).project_id ++ ".json" ≠
        p.project_id ++ "_preview.json" := by
      rw [hpid2]
      exact proj_preview_ne p.project_id
    have h6 := fsGet_saveFS_ne
      (fsWrite (designStoryboardS g fs p).2 (p.project_id ++ "_preview.json")
        (_build_preview_payload (designStoryboardS g fs p).1))
      ({ (designStoryboardS g fs p).1 with preview_ready := true })
      (p.project_id ++ "_preview.json") hne
    rw [h6]
    exact fsGet_fsWrite_self _ _ _

/-- C6 witness: `demoProject` is fresh, and the cascade description holds
of rendering it. -/
theorem c6_witness :
    demoProject.scenes = [] ∧ demoProject.storyboard_ready = false ∧
    demoProject.preview_ready = false ∧
    ((renderPreviewS { max_sentences := 5 } [] demoProject none).1 =
        demoProject.project_id ++ "_preview.json" ∧
      (renderPreviewS { max_sentences := 5 } [] demoProject none).2.1 =
        { (generateScriptS { max_sentences := 5 } [] demoProject).1 with
          scenes := StoryboardDesigner.design
            ((generateScriptS { max_sentences := 5 } [] demoProject).1.scenes),
          storyboard_ready := true, preview_ready := true } ∧
      (renderPreviewS { max_sentences := 5 } [] demoProject none).2.1.storyboard_ready = true ∧
      (renderPreviewS { max_sentences := 5 } [] demoProject none).2.1.preview_ready = true ∧
      fsGet (renderPreviewS { max_sentences := 5 } [] demoProject none).2.2
          (demoProject.project_id ++ ".json") =
        some (Project.toDict ((renderPreviewS { max_sentences := 5 } [] demoProject none).2.1)) ∧
      fsGet (renderPreviewS { max_sentences := 5 } [] demoProject none).2.2
          ((renderPreviewS { max_sentences := 5 } [] demoProject none).1) =
        some (_build_preview_payload
          ((designStoryboardS { max_sentences := 5 } [] demoProject).1))) :=
  ⟨rfl, rfl, rfl,
    c6_render_preview_fresh { max_sentences := 5 } [] demoProject rfl rfl rfl⟩

/-! ## C9 : list_projects -/

theorem isPrefixOf_append_self (l t : List Char) :
    List.isPrefixOf l (l ++ t) = true := by
  induction l with
  | nil => simp [List.isPrefixOf]
  | cons a rest ih => simp [List.isPrefixOf, ih]

theorem globJson_append (s : String) : globJson (s ++ ".json") = true := by
  unfold globJson
  rw [String.data_append]
  show List.isPrefixOf _ _ = true
  rw [List.reverse_append]
  exact isPrefixOf_append_self _ _

theorem fsGet_pairs (ps : List Project) (p : Project)
    (h : (ps.map projFileName).Nodup) (hp : p ∈ ps) :
    fsGet (ps.map (fun q => (projFileName q, Project.toDict q))) (projFileName p) =
      some (Project.toDict p) := by
  induction ps with
  | nil => cases hp
  | cons q rest ih =>
    rw [List.map_cons]
    rw [List.map_cons, List.nodup_cons] at h
    by_cases heq : projFileName q = projFileName p
    · rcases List.mem_cons.mp hp with rfl | hp2
      · simp [fsGet, heq]
      · exact absurd (heq ▸ List.mem_map_of_mem projFileName hp2) h.1
    · rcases List.mem_cons.mp hp with rfl | hp2
      · exact absurd rfl heq
      · simp only [fsGet, heq, if_false]
        exact ih h.2 hp2

theorem mapM_loadFile_ok (now : String) (fs : FS) (l : List Project)
    (h : ∀ p ∈ l, loadFile now fs (projFileName p) = .ok p) :
    (l.map projFileName).mapM (loadFile now fs) = .ok l := by
  induction l with
  | nil => rfl
  | cons a t ih =>
    rw [List.map_cons, List.mapM_cons, h a (List.mem_cons_self a t),
      ih (fun p hp => h p (List.mem_cons_of_mem a hp))]
    rfl

/-- C9 amended: on a home directory whose `.json` files are exactly the
saved project files (distinct file names), `list_projects` yields exactly
the persisted projects ordered lexicographically by filename; with the
empty list of projects this covers the empty home directory.  (The original
claim also covered homes holding a rendered `<id>_preview.json`; the
counterexample shows `list_projects` fails there instead.) -/
theorem c9_list_projects (now : String) (ps : List Project)
    (h : (ps.map projFileName).Nodup) :
    listProjects now (ps.map (fun p => (projFileName p, Project.toDict p))) =
      .ok (ps.mergeSort (fun a b => strLeb (projFileName a) (projFileName b))) := by
  unfold listProjects
  have hnames : (ps.map (fun p => (projFileName p, Project.toDict p))).map Prod.fst =
      ps.map projFileName := by
    rw [List.map_map]
    rfl
  have hfilter : (ps.map projFileName).filter globJson = ps.map projFileName := by
    rw [List.filter_eq_self]
    intro a ha
    obtain ⟨p, _, rfl⟩ := List.mem_map.mp ha
    exact globJson_append p.project_id
  rw [hnames, hfilter]
  have hms := @List.map_mergeSort Project String
    (fun a b => strLeb (projFileName a) (projFileName b)) strLeb projFileName ps
    (fun a _ b _ => rfl)
  rw [← hms]
  apply mapM_loadFile_ok
  intro p hp
  have hps : p ∈ ps :=
    (List.mergeSort_perm ps (fun a b => strLeb (projFileName a) (projFileName b))).subset hp
  unfold loadFile
  rw [fsGet_pairs ps p h hps]
  exact project_fromDict_toDict now p

/-- C9 counterexample: after `render_preview` writes its default
`<id>_preview.json` into the home directory, consuming `list_projects`
fails (the preview payload is not a valid Project document) instead of
yielding the persisted projects. -/
theorem c9_counterexample :
    (listProjects "2024-01-01T00:00:00Z" demoRenderedFS).isOk = false := by
  have h1 : ((demoRenderedFS.map Prod.fst).filter globJson) =
      ["feedfacecafe.json", "feedfacecafe_preview.json"] := by decide
  unfold listProjects
  rw [h1]
  have h2 : List.mergeSort ["feedfacecafe.json", "feedfacecafe_preview.json"] strLeb =
      ["feedfacecafe.json", "feedfacecafe_preview.json"] := by
    simp [List.mergeSort]
    rw [List.cons_merge_cons,
      if_pos (show strLeb "feedfacecafe.json" "feedfacecafe_preview.json" = true by decide)]
    rw [List.nil_merge]
  rw [h2]
  decide

/-- C9 witness: a home holding two saved projects with distinct ids, where
the amended statement applies. -/
theorem c9_witness :
    (([demoOther, demoProject].map projFileName).Nodup) ∧
    listProjects "2024-01-01T00:00:00Z"
        ([demoOther, demoProject].map (fun p => (projFileName p, Project.toDict p))) =
      .ok ([demoOther, demoProject].mergeSort
        (fun a b => strLeb (projFileName a) (projFileName b))) :=
  ⟨by decide, c9_list_projects "2024-01-01T00:00:00Z" [demoOther, demoProject] (by decide)⟩
